import Mathlib

/-!
# Verification of the ai-place-search core against its specification

Shallow embedding of the places-search feature:
* data model from `app/types/places.ts`,
* `MockPlacesService.searchPlaces`, `MockOpenAIService` and
  `MockDistanceService` from `app/lib/mock/places-service.ts`,
* the `filteredPlaces` view and classification triggers from
  `app/hooks/api/use-places-search.ts`,
* the navigation state machine from `app/hooks/shared/use-navigation-state.ts`
  and the navigation effect of `app/features/places/map-container.tsx`,
* `getClassificationFromRating` from the classification-badge component,
* `GooglePlacesService.calculateDistance` from the Google places service.

JavaScript numbers are modelled as `ℚ` (exact rationals) except for the
haversine distance computation, which needs real trigonometry and is modelled
over `ℝ`.  `Math.random()` draws are passed in explicitly as parameters in
`[0,1]`.  JavaScript truthiness of optional numbers/strings (`0`, `""` and
`undefined` are falsy) is modelled explicitly where the source relies on it.
-/

namespace AIPlaceSearch

/-! ## Data model (`app/types/places.ts`) -/

/-- `Coordinates`: `{lat, lng}` pair. -/
structure Coordinates where
  lat : ℚ
  lng : ℚ
  deriving DecidableEq, Repr

/-- `PlaceType` enum. -/
inductive PlaceType where
  | restaurants
  | parkings
  | hotels
  deriving DecidableEq, Repr

/-- `PlaceClassification` enum. -/
inductive PlaceClassification where
  | excellent
  | very_good
  | good
  | average
  | poor
  deriving DecidableEq, Repr

/-- Sentiment union type `'positive' | 'neutral' | 'negative'`. -/
inductive Sentiment where
  | positive
  | neutral
  | negative
  deriving DecidableEq, Repr

/-- `Review` record. -/
structure Review where
  id : String
  author : String
  rating : ℚ
  text : String
  date : String
  helpful : Option ℕ
  deriving DecidableEq, Repr

/-- `AIAnalysis` record. -/
structure AIAnalysis where
  classification : PlaceClassification
  confidence : ℚ
  summary : String
  pros : List String
  cons : List String
  sentiment : Sentiment
  keywords : List String
  deriving DecidableEq, Repr

/-- `Place` record.  `priceLevel`, `aiAnalysis` and `distance` are optional
fields (TypeScript `?`). -/
structure Place where
  id : String
  name : String
  address : String
  coordinates : Coordinates
  rating : ℚ
  totalReviews : ℕ
  priceLevel : Option ℕ
  photoUrl : Option String
  websiteUrl : Option String
  phoneNumber : Option String
  openingHours : Option (List String)
  reviews : List Review
  aiAnalysis : Option AIAnalysis
  distance : Option ℚ
  deriving DecidableEq, Repr

/-- `PlaceSearchParams` record. -/
structure PlaceSearchParams where
  location : Coordinates
  type : PlaceType
  radius : ℚ
  keyword : Option String
  minRating : Option ℚ
  priceLevel : Option (List ℕ)
  openNow : Option Bool
  deriving DecidableEq, Repr

/-- `PlaceSearchResult` record. -/
structure PlaceSearchResult where
  places : List Place
  totalFound : ℕ
  searchParams : PlaceSearchParams
  searchTime : ℕ
  nextPageToken : Option String
  deriving DecidableEq, Repr

/-- JavaScript truthiness of an optional number: `undefined` and `0` are
falsy. -/
def truthyQ : Option ℚ → Bool
  | none => false
  | some x => x ≠ 0

/-- JavaScript truthiness of an optional string: `undefined` and `""` are
falsy. -/
def truthyS : Option String → Bool
  | none => false
  | some s => s ≠ ""

/-! ## Classification bucketing

`getClassificationFromRating` (classification-badge component) and
`MockOpenAIService.getClassificationFromMetrics`
(`app/lib/mock/places-service.ts`, lines 247-260). -/

/-- `getClassificationFromRating` from the classification-badge component:
raw-rating thresholds 4.5 / 4.0 / 3.5 / 3.0. -/
def getClassificationFromRating (rating : ℚ) : PlaceClassification :=
  if rating ≥ 45/10 then .excellent
  else if rating ≥ 4 then .very_good
  else if rating ≥ 35/10 then .good
  else if rating ≥ 3 then .average
  else .poor

/-- `MockOpenAIService.getClassificationFromMetrics`: the same thresholds
applied to `rating * (0.7 + 0.3 * min(reviewCount / 100, 1))`. -/
def getClassificationFromMetrics (rating : ℚ) (reviewCount : ℕ) :
    PlaceClassification :=
  let confidenceMultiplier : ℚ := min ((reviewCount : ℚ) / 100) 1
  let adjustedRating := rating * (7/10 + 3/10 * confidenceMultiplier)
  if adjustedRating ≥ 45/10 then .excellent
  else if adjustedRating ≥ 4 then .very_good
  else if adjustedRating ≥ 35/10 then .good
  else if adjustedRating ≥ 3 then .average
  else .poor

/-- The bucketing rule exactly as the specification words it: `excellent` when
`rating ≥ 4.5`, `very_good` when `4.0 ≤ rating < 4.5`, `good` when
`3.5 ≤ rating < 4.0`, `average` when `3.0 ≤ rating < 3.5`, `poor`
otherwise. -/
def specBucketOfRating (rating : ℚ) : PlaceClassification :=
  if 45/10 ≤ rating then .excellent
  else if 4 ≤ rating ∧ rating < 45/10 then .very_good
  else if 35/10 ≤ rating ∧ rating < 4 then .good
  else if 3 ≤ rating ∧ rating < 35/10 then .average
  else .poor

/-! ## `MockPlacesService.searchPlaces`
(`app/lib/mock/places-service.ts`, lines 93-133)

`Array.prototype.sort` is modelled as a stable top-down merge sort (the
ECMAScript implementations in use are stable merge-based sorts; with the
inconsistent comparator below the ECMAScript specification leaves the sort
order implementation-defined, so we fix this one).  The recursion is driven
by an explicit fuel argument so that every definition reduces in the
kernel. -/

/-- One merge step of two runs; `le x y` means the comparator returned
`≤ 0` on `(x, y)`, so `x` stays before `y` (ties keep the left run first,
which is what makes the sort stable).  `fuel` bounds the recursion depth. -/
def mergeF (le : α → α → Bool) : ℕ → List α → List α → List α
  | 0, xs, ys => xs ++ ys
  | _ + 1, [], ys => ys
  | _ + 1, x :: xs, [] => x :: xs
  | fuel + 1, x :: xs, y :: ys =>
    if le x y then x :: mergeF le fuel xs (y :: ys)
    else y :: mergeF le fuel (x :: xs) ys

/-- Top-down merge sort with explicit fuel: split the list in two contiguous
halves, sort each, merge. -/
def mergeSortF (le : α → α → Bool) : ℕ → List α → List α
  | 0, l => l
  | fuel + 1, l =>
    if l.length ≤ 1 then l
    else
      let n := l.length / 2
      mergeF le l.length
        (mergeSortF le fuel (l.take n)) (mergeSortF le fuel (l.drop n))

/-- The model of `filteredPlaces.sort(comparator)`. -/
def jsSort (le : α → α → Bool) (l : List α) : List α :=
  mergeSortF le l.length l

/-- `(place.distance || 0)`: an undefined distance is coerced to `0` by the
comparator. -/
def distOr0 (p : Place) : ℚ := p.distance.getD 0

/-- `Math.abs` on a rational. -/
def qAbs (x : ℚ) : ℚ := if x < 0 then -x else x

theorem qAbs_eq_abs (x : ℚ) : qAbs x = |x| := by
  unfold qAbs
  by_cases h : x < 0
  · simp [h, abs_of_neg h]
  · simp [h, abs_of_nonneg (le_of_not_lt h)]

/-- The comparator passed to `filteredPlaces.sort`:
`ratingDiff = b.rating - a.rating`; if `|ratingDiff| < 0.1` compare
`(a.distance || 0) - (b.distance || 0)`, otherwise return `ratingDiff`. -/
def searchCompare (a b : Place) : ℚ :=
  let ratingDiff := b.rating - a.rating
  if qAbs ratingDiff < 1/10 then distOr0 a - distOr0 b
  else ratingDiff

/-- `a` may stay before `b` under the comparator (comparator value `≤ 0`). -/
def searchLE (a b : Place) : Bool := searchCompare a b ≤ 0

/-- Substring occurrence test on character lists. -/
def hasSubstring (pat : List Char) : List Char → Bool
  | [] => pat.isEmpty
  | c :: rest => pat.isPrefixOf (c :: rest) || hasSubstring pat rest

/-- `String.prototype.toLowerCase().includes(kw)` on an already lowercased
keyword. -/
def jsIncludesLower (s kw : String) : Bool :=
  hasSubstring kw.toList s.toLower.toList

/-- The filtering stage of `searchPlaces`: the `minRating` filter (applied
only when `params.minRating` is truthy) followed by the `keyword` filter
(applied only when `params.keyword` is truthy; it keeps places whose
lowercased name or address contains the lowercased keyword). -/
def mockFilterStage (params : PlaceSearchParams) (allPlaces : List Place) :
    List Place :=
  let f1 :=
    if truthyQ params.minRating then
      allPlaces.filter fun place => params.minRating.getD 0 ≤ place.rating
    else allPlaces
  if truthyS params.keyword then
    let keyword := (params.keyword.getD "").toLower
    f1.filter fun place =>
      jsIncludesLower place.name keyword || jsIncludesLower place.address keyword
  else f1

/-- `MockPlacesService.searchPlaces`.  The candidate list produced by
`generateMockPlaces` is random in the source, so it is taken as the
`allPlaces` argument; `Date.now()` is the `now` argument.  The body filters,
sorts with `searchCompare`, truncates to 10 (`slice(0, 10)`) and reports the
pre-truncation count as `totalFound`. -/
def searchPlaces (params : PlaceSearchParams) (allPlaces : List Place)
    (now : ℕ) : PlaceSearchResult :=
  let filteredPlaces := mockFilterStage params allPlaces
  let sorted := jsSort searchLE filteredPlaces
  { places := sorted.take 10
    totalFound := sorted.length
    searchParams := params
    searchTime := now
    nextPageToken :=
      if sorted.length > 10 then some "next_page_token_123" else none }

/-! ### Sortedness produced by `jsSort` -/

/-- Adjacent-pairs sortedness under a boolean comparator. -/
def SortedAdj (le : α → α → Bool) (l : List α) : Prop :=
  List.Chain' (fun a b => le a b = true) l

theorem mergeF_length (le : α → α → Bool) :
    ∀ (fuel : ℕ) (xs ys : List α),
      (mergeF le fuel xs ys).length = xs.length + ys.length := by
  intro fuel
  induction fuel with
  | zero => intro xs ys; simp [mergeF]
  | succ fuel ih =>
    intro xs ys
    match xs, ys with
    | [], ys => simp [mergeF]
    | x :: xs, [] => simp [mergeF]
    | x :: xs, y :: ys =>
      by_cases h : le x y = true <;> simp [mergeF, h, ih] <;> omega

theorem mergeSortF_length (le : α → α → Bool) :
    ∀ (fuel : ℕ) (l : List α), (mergeSortF le fuel l).length = l.length := by
  intro fuel
  induction fuel with
  | zero => intro l; rfl
  | succ fuel ih =>
    intro l
    by_cases h : l.length ≤ 1
    · simp [mergeSortF, h]
    · simp only [mergeSortF, h, if_false, mergeF_length, ih,
        List.length_take, List.length_drop]
      omega

theorem jsSort_length (le : α → α → Bool) (l : List α) :
    (jsSort le l).length = l.length :=
  mergeSortF_length le l.length l

theorem mergeF_head?_or (le : α → α → Bool) (fuel : ℕ) (xs ys : List α) :
    (mergeF le fuel xs ys).head? = xs.head? ∨
      (mergeF le fuel xs ys).head? = ys.head? := by
  match fuel, xs, ys with
  | 0, [], ys => right; simp [mergeF]
  | 0, x :: xs, ys => left; simp [mergeF]
  | fuel + 1, [], ys => right; simp [mergeF]
  | fuel + 1, x :: xs, [] => left; simp [mergeF]
  | fuel + 1, x :: xs, y :: ys =>
    by_cases h : le x y = true
    · left; simp [mergeF, h]
    · right; simp [mergeF, h]

/-- Merging two adjacently sorted runs yields an adjacently sorted list, for
any total boolean comparator — transitivity is not required, which matters
because the search comparator's tie relation is not transitive. -/
theorem mergeF_sortedAdj (le : α → α → Bool)
    (total : ∀ a b, le a b = true ∨ le b a = true) :
    ∀ (fuel : ℕ) (xs ys : List α), xs.length + ys.length ≤ fuel →
      SortedAdj le xs → SortedAdj le ys → SortedAdj le (mergeF le fuel xs ys) := by
  intro fuel
  induction fuel with
  | zero =>
    intro xs ys hlen hx hy
    have hx0 : xs = [] := by
      cases xs with
      | nil => rfl
      | cons a t => simp at hlen
    have hy0 : ys = [] := by
      cases ys with
      | nil => rfl
      | cons a t => rw [hx0] at hlen; simp at hlen
    subst hx0; subst hy0
    simp [mergeF, SortedAdj]
  | succ fuel ih =>
    intro xs ys hlen hx hy
    match xs, ys with
    | [], ys => simpa [mergeF, SortedAdj] using hy
    | x :: xs, [] => simpa [mergeF, SortedAdj] using hx
    | x :: xs, y :: ys =>
      by_cases h : le x y = true
      · have hrest : SortedAdj le (mergeF le fuel xs (y :: ys)) := by
          apply ih xs (y :: ys)
          · simp at hlen ⊢; omega
          · exact List.Chain'.tail hx
          · exact hy
        simp only [mergeF, h, if_true]
        refine List.chain'_cons'.mpr ⟨?_, hrest⟩
        intro z hz
        rcases mergeF_head?_or le fuel xs (y :: ys) with hh | hh
        · rw [hh] at hz
          exact (List.chain'_cons'.mp hx).1 z hz
        · rw [hh] at hz
          simp only [List.head?_cons, Option.mem_def, Option.some.injEq] at hz
          subst hz; exact h
      · have hyx : le y x = true := (total x y).resolve_left h
        have hrest : SortedAdj le (mergeF le fuel (x :: xs) ys) := by
          apply ih (x :: xs) ys
          · simp at hlen ⊢; omega
          · exact hx
          · exact List.Chain'.tail hy
        simp only [mergeF, h, if_false]
        refine List.chain'_cons'.mpr ⟨?_, hrest⟩
        intro z hz
        rcases mergeF_head?_or le fuel (x :: xs) ys with hh | hh
        · rw [hh] at hz
          simp only [List.head?_cons, Option.mem_def, Option.some.injEq] at hz
          subst hz; exact hyx
        · rw [hh] at hz
          exact (List.chain'_cons'.mp hy).1 z hz

theorem mergeSortF_sortedAdj (le : α → α → Bool)
    (total : ∀ a b, le a b = true ∨ le b a = true) :
    ∀ (fuel : ℕ) (l : List α), l.length ≤ fuel →
      SortedAdj le (mergeSortF le fuel l) := by
  intro fuel
  induction fuel with
  | zero =>
    intro l hlen
    have : l = [] := by
      cases l with
      | nil => rfl
      | cons a t => simp at hlen
    subst this
    simp [mergeSortF, SortedAdj]
  | succ fuel ih =>
    intro l hlen
    by_cases h : l.length ≤ 1
    · match l, h with
      | [], _ => simp [mergeSortF, SortedAdj]
      | [a], _ => simp [mergeSortF, SortedAdj]
    · simp only [mergeSortF, h, if_false]
      have h2 : 2 ≤ l.length := by omega
      apply mergeF_sortedAdj le total
      · rw [mergeSortF_length, mergeSortF_length, List.length_take,
          List.length_drop]
        omega
      · apply ih
        rw [List.length_take]
        omega
      · apply ih
        rw [List.length_drop]
        omega

theorem jsSort_sortedAdj (le : α → α → Bool)
    (total : ∀ a b, le a b = true ∨ le b a = true) (l : List α) :
    SortedAdj le (jsSort le l) :=
  mergeSortF_sortedAdj le total l.length l le_rfl

/-- The search comparator is total (any two places are ordered one way or the
other), even though its tie relation is not transitive. -/
theorem searchLE_total (a b : Place) :
    searchLE a b = true ∨ searchLE b a = true := by
  simp only [searchLE, searchCompare, decide_eq_true_eq, qAbs_eq_abs]
  rw [show |a.rating - b.rating| = |b.rating - a.rating| from abs_sub_comm _ _]
  by_cases h : |b.rating - a.rating| < 1/10
  · simp only [h, if_true]
    rcases le_total (distOr0 a) (distOr0 b) with h' | h'
    · left; linarith
    · right; linarith
  · simp only [h, if_false]
    rcases le_total a.rating b.rating with h' | h'
    · right; linarith
    · left; linarith

/-- The ordering the specification words describe for a pair `(a, b)` with
`a` rendered before `b`: rating descending, with distance ascending as the
tie-break exactly when the ratings differ by less than `0.1`. -/
def specSortOrderB (a b : Place) : Bool :=
  if qAbs (a.rating - b.rating) < 1/10 then distOr0 a ≤ distOr0 b
  else b.rating < a.rating

/-- The comparator's "may stay before" relation coincides with the ordering
described by the specification. -/
theorem searchLE_eq_specSortOrderB (a b : Place) :
    searchLE a b = specSortOrderB a b := by
  simp only [searchLE, searchCompare, specSortOrderB, qAbs_eq_abs]
  rw [show |a.rating - b.rating| = |b.rating - a.rating| from abs_sub_comm _ _]
  by_cases h : |b.rating - a.rating| < 1/10
  · simp only [h, if_true]
    apply decide_eq_decide.mpr
    constructor
    · intro h'; linarith
    · intro h'; linarith
  · simp only [h, if_false]
    have hne : b.rating ≠ a.rating := by
      intro hc
      apply h
      rw [hc, sub_self, abs_zero]
      norm_num
    apply decide_eq_decide.mpr
    constructor
    · intro h'
      rcases lt_or_eq_of_le (by linarith : b.rating ≤ a.rating) with hlt | heq
      · exact hlt
      · exact absurd heq hne
    · intro h'; linarith

/-! ### Concrete fixtures for counterexamples -/

/-- A minimal concrete `Place` (only the fields the search pipeline inspects
are non-trivial). -/
def basicPlace (id : String) (rating : ℚ) (distance : ℚ) : Place :=
  { id := id, name := id, address := "", coordinates := ⟨0, 0⟩,
    rating := rating, totalReviews := 10, priceLevel := none,
    photoUrl := none, websiteUrl := none, phoneNumber := none,
    openingHours := none, reviews := [], aiAnalysis := none,
    distance := some distance }

/-- Search parameters with no optional filter active. -/
def noFilterParams : PlaceSearchParams :=
  { location := ⟨0, 0⟩, type := .restaurants, radius := 2000,
    keyword := none, minRating := none, priceLevel := none, openNow := none }

/-- **C1, counterexample.**  On the candidate set
`[(rating 4.17, distance 300), (rating 4.00, distance 100),
(rating 4.09, distance 200)]` the returned sequence is
`[(4.17, 300), (4.00, 100), (4.09, 200)]`: the first and third places have
ratings differing by `0.08 < 0.1`, yet their distances are descending
(`300 > 200`), so the sequence is not pairwise sorted by the claimed rule.
The comparator's tie relation (rating difference `< 0.1`) is not transitive,
so the sort only guarantees the rule between adjacent elements. -/
theorem c1_counterexample :
    ¬ (searchPlaces noFilterParams
        [basicPlace "c" (417/100) 300, basicPlace "a" 4 100,
          basicPlace "b" (409/100) 200] 0).places.Pairwise
        (fun a b => specSortOrderB a b = true) := by
  have hp : (searchPlaces noFilterParams
      [basicPlace "c" (417/100) 300, basicPlace "a" 4 100,
        basicPlace "b" (409/100) 200] 0).places
      = [basicPlace "c" (417/100) 300, basicPlace "a" 4 100,
          basicPlace "b" (409/100) 200] := by
    norm_num [searchPlaces, mockFilterStage, truthyQ, truthyS, jsSort,
      mergeSortF, mergeF, searchLE, searchCompare, qAbs, distOr0, basicPlace,
      noFilterParams]
  rw [hp]
  intro hcon
  have h2 := (List.pairwise_cons.mp hcon).1 (basicPlace "b" (409/100) 200)
    (List.mem_cons_of_mem _ (List.mem_cons_self _ _))
  have h3 : specSortOrderB (basicPlace "c" (417/100) 300)
      (basicPlace "b" (409/100) 200) = false := by
    norm_num [specSortOrderB, qAbs, distOr0, basicPlace]
  rw [h3] at h2
  exact Bool.false_ne_true h2

/-- **C1** (amended): for every search invocation, every *adjacent* pair of
the returned places sequence satisfies the order "rating descending, with
distance ascending as the tie-break exactly when the two ratings differ by
less than 0.1"; the sequence has length at most 10; and `totalFound` equals
the number of candidate places after filtering but before truncation to 10.
(The claim's full pairwise sortedness fails — see the counterexample —
because the tie relation is not transitive.) -/
theorem c1_searchPlaces_shape (params : PlaceSearchParams)
    (allPlaces : List Place) (now : ℕ) :
    (searchPlaces params allPlaces now).places.length ≤ 10 ∧
    (searchPlaces params allPlaces now).totalFound
      = (mockFilterStage params allPlaces).length ∧
    List.Chain' (fun a b => specSortOrderB a b = true)
      (searchPlaces params allPlaces now).places := by
  refine ⟨?_, ?_, ?_⟩
  · simp only [searchPlaces, List.length_take]
    omega
  · simp only [searchPlaces, jsSort_length]
  · have h := jsSort_sortedAdj searchLE searchLE_total
      (mockFilterStage params allPlaces)
    have h' : SortedAdj specSortOrderB
        (jsSort searchLE (mockFilterStage params allPlaces)) := by
      unfold SortedAdj at h ⊢
      have heq : (fun a b : Place => specSortOrderB a b = true)
          = fun a b => searchLE a b = true := by
        funext a b
        rw [searchLE_eq_specSortOrderB]
      rw [heq]
      exact h
    exact List.Chain'.take h' 10

/-! ### Classification bucketing (C5) -/

/-- The badge utility's raw-rating bucketing coincides with the bucketing the
specification describes. -/
theorem getClassificationFromRating_eq_spec (r : ℚ) :
    getClassificationFromRating r = specBucketOfRating r := by
  unfold getClassificationFromRating specBucketOfRating
  rcases lt_or_le r 3 with h1 | h1
  · have e1 : ¬ (45/10 ≤ r) := by linarith
    have e2 : ¬ ((4:ℚ) ≤ r) := by linarith
    have e3 : ¬ ((35:ℚ)/10 ≤ r) := by linarith
    have e4 : ¬ ((3:ℚ) ≤ r) := by linarith
    simp [ge_iff_le, e1, e2, e3, e4]
  · rcases lt_or_le r (35/10) with h2 | h2
    · have e1 : ¬ (45/10 ≤ r) := by linarith
      have e2 : ¬ ((4:ℚ) ≤ r) := by linarith
      have e3 : ¬ ((35:ℚ)/10 ≤ r) := by linarith
      simp [ge_iff_le, e1, e2, e3, h1, h2]
    · rcases lt_or_le r 4 with h3 | h3
      · have e1 : ¬ (45/10 ≤ r) := by linarith
        have e2 : ¬ ((4:ℚ) ≤ r) := by linarith
        simp [ge_iff_le, e1, e2, h2, h3]
      · rcases lt_or_le r (45/10) with h4 | h4
        · have e1 : ¬ (45/10 ≤ r) := by linarith
          simp [ge_iff_le, e1, h3, h4]
        · simp [ge_iff_le, h4]

/-- The enricher's bucketing is the raw bucketing applied to the adjusted
rating `rating * (0.7 + 0.3 * min(reviewCount / 100, 1))`. -/
theorem getClassificationFromMetrics_eq_adjusted (r : ℚ) (n : ℕ) :
    getClassificationFromMetrics r n
      = getClassificationFromRating (r * (7/10 + 3/10 * min ((n : ℚ) / 100) 1)) :=
  rfl

/-- **C5, counterexample.**  A place with rating `5.0` and `0` reviews: the
claimed bucketing demands `excellent` (`rating ≥ 4.5`), but the enricher's
`getClassificationFromMetrics` adjusts the rating to `5 * 0.7 = 3.5` and
returns `good`. -/
theorem c5_counterexample :
    getClassificationFromMetrics 5 0 = .good ∧
    specBucketOfRating 5 = .excellent ∧
    getClassificationFromMetrics 5 0 ≠ specBucketOfRating 5 := by
  refine ⟨?_, ?_, ?_⟩
  · norm_num [getClassificationFromMetrics, min_def]
  · norm_num [specBucketOfRating]
  · norm_num [getClassificationFromMetrics, specBucketOfRating, min_def]
    intro hc
    cases hc

/-- **C5** (amended): the claimed thresholds (`≥4.5 → excellent`,
`≥4.0 → very_good`, `≥3.5 → good`, `≥3.0 → average`, else `poor`) are applied
by the badge utility `getClassificationFromRating` to the raw rating for
every rating, and by the enricher's `getClassificationFromMetrics` only once
the review count reaches 100 (below that the enricher applies them to the
deflated rating `rating * (0.7 + 0.3 * reviewCount/100)` — see the
counterexample). -/
theorem c5_classification_buckets (rating : ℚ) (reviewCount : ℕ)
    (h : 100 ≤ reviewCount) :
    getClassificationFromRating rating = specBucketOfRating rating ∧
    getClassificationFromMetrics rating reviewCount
      = specBucketOfRating rating := by
  refine ⟨getClassificationFromRating_eq_spec rating, ?_⟩
  have hm : min ((reviewCount : ℚ) / 100) 1 = 1 := by
    apply min_eq_right
    rw [le_div_iff₀ (by norm_num : (0:ℚ) < 100), one_mul]
    exact_mod_cast h
  have hadj : rating * (7/10 + 3/10 * min ((reviewCount : ℚ) / 100) 1)
      = rating := by
    rw [hm]
    ring
  rw [getClassificationFromMetrics_eq_adjusted, hadj]
  exact getClassificationFromRating_eq_spec rating

/-- Witness for `c5_classification_buckets` at rating `4.5` and 150
reviews. -/
theorem c5_classification_buckets_witness :
    getClassificationFromRating (45/10) = specBucketOfRating (45/10) ∧
    getClassificationFromMetrics (45/10) 150 = specBucketOfRating (45/10) :=
  c5_classification_buckets (45/10) 150 (by norm_num)

/-! ## `MockOpenAIService` (`app/lib/mock/places-service.ts`, lines 175-292)
and the classification triggers of `use-places-search.ts`.

`Math.random()` draws are passed explicitly: `confDraw ∈ [0,1]` is the draw
used for the returned confidence, `templateDraw` the draw picking one of the
two summary templates.  JavaScript number-to-string interpolation is
abstracted by `toString`. -/

/-- One invocation's worth of randomness for `analyzePlaceReviews`. -/
structure AnalysisDraw where
  confDraw : ℚ
  templateDraw : Bool
  deriving DecidableEq, Repr

/-- `mockAIAnalyses` from `app/lib/mock/places-data.ts`. -/
def mockAIAnalyses : PlaceClassification → AIAnalysis
  | .excellent =>
    { classification := .excellent, confidence := 92/100
      summary := "Outstanding establishment with consistently excellent reviews. Customers praise the quality, service, and atmosphere."
      pros := ["Exceptional food quality", "Outstanding service",
        "Great atmosphere", "Consistent experience"]
      cons := ["Higher price point", "Sometimes busy"]
      sentiment := .positive
      keywords := ["amazing", "excellent", "outstanding", "perfect", "wonderful"] }
  | .very_good =>
    { classification := .very_good, confidence := 87/100
      summary := "Very good place with mostly positive reviews. Minor areas for improvement but overall highly recommended."
      pros := ["Good food quality", "Friendly staff", "Nice location"]
      cons := ["Slightly expensive", "Occasional service delays"]
      sentiment := .positive
      keywords := ["good", "nice", "friendly", "recommended", "quality"] }
  | .good =>
    { classification := .good, confidence := 75/100
      summary := "Solid choice with decent reviews. Good value for money with room for improvement."
      pros := ["Reasonable prices", "Decent food", "Good location"]
      cons := ["Service could be better", "Limited menu options"]
      sentiment := .neutral
      keywords := ["decent", "reasonable", "okay", "fair", "acceptable"] }
  | .average =>
    { classification := .average, confidence := 68/100
      summary := "Mixed reviews with average performance. Some customers satisfied, others disappointed."
      pros := ["Affordable prices", "Central location"]
      cons := ["Inconsistent quality", "Service issues", "Limited options"]
      sentiment := .neutral
      keywords := ["average", "mixed", "inconsistent", "basic", "standard"] }
  | .poor =>
    { classification := .poor, confidence := 81/100
      summary := "Consistently poor reviews citing quality and service issues. Not recommended."
      pros := ["Low prices"]
      cons := ["Poor food quality", "Bad service", "Unclean environment",
        "Long wait times"]
      sentiment := .negative
      keywords := ["poor", "bad", "terrible", "disappointing", "avoid"] }

/-- `MockOpenAIService.generateCustomSummary`: two templates per
classification, one picked by the random draw. -/
def generateCustomSummary (place : Place)
    (classification : PlaceClassification) (templateDraw : Bool) : String :=
  let r := toString place.rating
  let n := toString place.totalReviews
  match classification, templateDraw with
  | .excellent, false =>
    place.name ++ " stands out as an exceptional choice with a " ++ r ++
      "★ rating from " ++ n ++ " reviews."
  | .excellent, true =>
    "Highly acclaimed " ++ place.name ++
      " delivers outstanding experience consistently, earning " ++ r ++
      "★ from " ++ n ++ " satisfied customers."
  | .very_good, false =>
    place.name ++ " is a very good option with " ++ r ++ "★ rating from " ++
      n ++ " reviews."
  | .very_good, true =>
    "Well-regarded " ++ place.name ++ " maintains high standards with " ++
      r ++ "★ from " ++ n ++ " visitors."
  | .good, false =>
    place.name ++ " offers a solid experience with " ++ r ++
      "★ rating from " ++ n ++ " reviews."
  | .good, true =>
    "Dependable choice " ++ place.name ++ " provides good value with " ++ r ++
      "★ from " ++ n ++ " customers."
  | .average, false =>
    place.name ++ " shows mixed results with " ++ r ++ "★ rating from " ++
      n ++ " reviews."
  | .average, true =>
    place.name ++ " delivers average performance with " ++ r ++ "★ from " ++
      n ++ " mixed reviews."
  | .poor, false =>
    place.name ++ " has concerning reviews with " ++ r ++ "★ rating from " ++
      n ++ " reviews."
  | .poor, true =>
    place.name ++ " shows consistent issues based on " ++ r ++ "★ from " ++
      n ++ " disappointed customers."

/-- `MockOpenAIService.analyzePlaceReviews`: classification from the metrics,
base analysis from `mockAIAnalyses`, custom summary, and confidence
`Math.random() * 0.2 + 0.8` (independent of the place). -/
def analyzePlaceReviews (place : Place) (draw : AnalysisDraw) : AIAnalysis :=
  let classification :=
    getClassificationFromMetrics place.rating place.totalReviews
  let baseAnalysis := mockAIAnalyses classification
  { baseAnalysis with
    summary := generateCustomSummary place classification draw.templateDraw
    confidence := draw.confDraw * (2/10) + 8/10 }

/-- `MockOpenAIService.batchAnalyzePlaces`: one `analyzePlaceReviews` call
per place in the list — the output association list records, in order, every
provider call issued together with its result.  Note that `place.aiAnalysis`
is never consulted. -/
def batchAnalyzePlaces (places : List Place) (draws : ℕ → AnalysisDraw) :
    List (String × AIAnalysis) :=
  places.enum.map fun e => (e.2.id, analyzePlaceReviews e.2 (draws e.1))

/-- `selectPlace` from `use-places-search.ts` (lines 165-172): returns the
new `selectedPlace` state together with the list of places for which an
individual analysis mutation (provider call) is issued; a call is issued only
when a place is selected, AI analysis is enabled, and `place.aiAnalysis` is
not set. -/
def selectPlace (enableAIAnalysis : Bool) (place : Option Place) :
    Option Place × List Place :=
  (place,
    match place with
    | some p => if enableAIAnalysis && p.aiAnalysis.isNone then [p] else []
    | none => [])

/-- A concrete already-classified place: rating `5.0`, 200 reviews, with the
`excellent` stock analysis already attached. -/
def classifiedPlace : Place :=
  { basicPlace "p1" 5 100 with
    totalReviews := 200
    aiAnalysis := some (mockAIAnalyses .excellent) }

/-- **C4, counterexample.**  Batch enrichment of a result set containing
`classifiedPlace` — whose `aiAnalysis` is already set — issues a fresh
`analyzePlaceReviews` provider call for it and produces an analysis that
differs from the existing one (the recorded call list is not empty, and the
fresh analysis is not the stored `AIAnalysis`): the at-most-once guard exists
only on the selection path, not in `analyzePlaceReviews`/
`batchAnalyzePlaces`. -/
theorem c4_counterexample :
    classifiedPlace.aiAnalysis = some (mockAIAnalyses .excellent) ∧
    batchAnalyzePlaces [classifiedPlace] (fun _ => ⟨0, false⟩)
      = [(classifiedPlace.id, analyzePlaceReviews classifiedPlace ⟨0, false⟩)] ∧
    analyzePlaceReviews classifiedPlace ⟨0, false⟩ ≠ mockAIAnalyses .excellent := by
  refine ⟨rfl, rfl, ?_⟩
  intro hc
  have h := congrArg AIAnalysis.confidence hc
  norm_num [analyzePlaceReviews, mockAIAnalyses] at h

/-- **C4** (amended): the at-most-once guard holds on the selection path —
for every place whose `aiAnalysis` is already set, `selectPlace` sets the
selection and issues no provider call (so the existing analysis is kept
unchanged) — whereas `analyzePlaceReviews`/`batchAnalyzePlaces` themselves
never consult `aiAnalysis` and re-analyze unconditionally (see the
counterexample). -/
theorem c4_selectPlace_noop (enableAIAnalysis : Bool) (p : Place)
    (a : AIAnalysis) (h : p.aiAnalysis = some a) :
    selectPlace enableAIAnalysis (some p) = (some p, []) := by
  simp [selectPlace, h]

/-- Witness for `c4_selectPlace_noop` on `classifiedPlace`. -/
theorem c4_selectPlace_noop_witness :
    selectPlace true (some classifiedPlace) = (some classifiedPlace, []) :=
  c4_selectPlace_noop true classifiedPlace (mockAIAnalyses .excellent) rfl

/-- A place with few reviews (otherwise identical to `manyReviewsPlace`). -/
def fewReviewsPlace : Place := { basicPlace "p" 4 100 with totalReviews := 0 }

/-- A place with many reviews. -/
def manyReviewsPlace : Place :=
  { basicPlace "p" 4 100 with totalReviews := 1000 }

/-- **C6.**  The confidence returned by the enricher is
`0.8 + 0.2 * Math.random()`, independent of the review count: for two places
identical except for their review counts (0 versus 1000 reviews), admissible
random draws (`0.99` and `0` — both in `[0,1]`) give the place with *fewer*
reviews the strictly *higher* confidence, violating monotonicity in the
review count. -/
theorem c6_confidence_not_monotone :
    fewReviewsPlace = { manyReviewsPlace with totalReviews := 0 } ∧
    fewReviewsPlace.totalReviews < manyReviewsPlace.totalReviews ∧
    (0:ℚ) ≤ 99/100 ∧ (99/100 : ℚ) ≤ 1 ∧ (0:ℚ) ≤ 0 ∧ (0:ℚ) ≤ 1 ∧
    (analyzePlaceReviews manyReviewsPlace ⟨0, false⟩).confidence
      < (analyzePlaceReviews fewReviewsPlace ⟨99/100, false⟩).confidence := by
  refine ⟨rfl, by norm_num [fewReviewsPlace, manyReviewsPlace, basicPlace],
    by norm_num, by norm_num, le_rfl, by norm_num, ?_⟩
  norm_num [analyzePlaceReviews]

/-! ## Client-side filtering: `filteredPlaces`
(`app/hooks/api/use-places-search.ts`, lines 206-234) -/

/-- The `rating` group of `PlaceFilters`. -/
structure RatingRange where
  min : ℚ
  max : ℚ
  deriving DecidableEq, Repr

/-- The `distance` group of `PlaceFilters` (`max` in km). -/
structure DistanceFilter where
  max : ℚ
  deriving DecidableEq, Repr

/-- `Partial<PlaceFilters>`: every group may be absent. -/
structure PlaceFiltersPartial where
  rating : Option RatingRange
  priceLevel : Option (List ℕ)
  openNow : Option Bool
  distance : Option DistanceFilter
  features : Option (List String)
  deriving DecidableEq, Repr

/-- The `filteredPlaces` memo: copies the fetched list and applies the
rating, price-level and distance filters in sequence, each only when its
filter group is active.  JavaScript truthiness is preserved:
`filters.distance?.max` is falsy when `max` is `0`, `place.priceLevel` is
falsy when `0` or undefined, and `!place.distance` passes places with
undefined or zero distance. -/
def filteredPlaces (filters : PlaceFiltersPartial) (places : List Place) :
    List Place :=
  let s1 :=
    match filters.rating with
    | some r => places.filter fun place =>
        decide (r.min ≤ place.rating) && decide (place.rating ≤ r.max)
    | none => places
  let s2 :=
    match filters.priceLevel with
    | some pl =>
      if pl.length > 0 then
        s1.filter fun place =>
          match place.priceLevel with
          | some lv => decide (lv ≠ 0) && pl.contains lv
          | none => false
      else s1
    | none => s1
  match filters.distance with
  | some d =>
    if d.max ≠ 0 then
      s2.filter fun place =>
        match place.distance with
        | none => true
        | some dist => decide (dist = 0) || decide (dist ≤ d.max * 1000)
    else s2
  | none => s2

/-- The rating clause of `filteredPlaces` (true when inactive). -/
def ratingClause (filters : PlaceFiltersPartial) (p : Place) : Bool :=
  match filters.rating with
  | some r => decide (r.min ≤ p.rating) && decide (p.rating ≤ r.max)
  | none => true

/-- The price-level clause of `filteredPlaces` (true when inactive). -/
def priceClause (filters : PlaceFiltersPartial) (p : Place) : Bool :=
  match filters.priceLevel with
  | some pl =>
    if pl.length > 0 then
      match p.priceLevel with
      | some lv => decide (lv ≠ 0) && pl.contains lv
      | none => false
    else true
  | none => true

/-- The distance clause of `filteredPlaces` (true when inactive; places with
undefined or zero distance always pass). -/
def distanceClause (filters : PlaceFiltersPartial) (p : Place) : Bool :=
  match filters.distance with
  | some d =>
    if d.max ≠ 0 then
      match p.distance with
      | none => true
      | some dist => decide (dist = 0) || decide (dist ≤ d.max * 1000)
    else true
  | none => true

/-- Conjunction of the three active clauses. -/
def keepPlace (filters : PlaceFiltersPartial) (p : Place) : Bool :=
  ratingClause filters p && priceClause filters p && distanceClause filters p

/-- The three stages of `filteredPlaces` are the three clause filters
stacked. -/
theorem filteredPlaces_staged (f : PlaceFiltersPartial) (ps : List Place) :
    filteredPlaces f ps
      = ((ps.filter (ratingClause f)).filter (priceClause f)).filter
          (distanceClause f) := by
  unfold filteredPlaces ratingClause priceClause distanceClause
  cases f.rating <;> cases f.priceLevel <;> cases f.distance <;>
    (try simp only [ne_eq]) <;> (try split_ifs) <;> simp [List.filter_true]

/-- The staged filtering is one pure `filter` by the AND of the active
clauses: a derived view of the fetched list, in original relative order. -/
theorem filteredPlaces_eq_filter (f : PlaceFiltersPartial) (ps : List Place) :
    filteredPlaces f ps = ps.filter (keepPlace f) := by
  rw [filteredPlaces_staged, List.filter_filter, List.filter_filter]
  apply List.filter_congr
  intro x hx
  simp [keepPlace, Bool.and_assoc, Bool.and_comm, Bool.and_left_comm]

/-- The keep-predicate exactly as the claim words it: rating in `[min,max]`
when a rating filter is present; priceLevel in the price set when that set is
non-empty; distance at most `max*1000` meters when a distance filter is
present (a place with no distance value has no distance at most
`max*1000`). -/
def specFilterKeep (f : PlaceFiltersPartial) (p : Place) : Bool :=
  (match f.rating with
   | some r => decide (r.min ≤ p.rating) && decide (p.rating ≤ r.max)
   | none => true) &&
  (match f.priceLevel with
   | some pl =>
     if pl.length > 0 then
       match p.priceLevel with
       | some lv => pl.contains lv
       | none => false
     else true
   | none => true) &&
  (match f.distance with
   | some d =>
     match p.distance with
     | some dist => decide (dist ≤ d.max * 1000)
     | none => false
   | none => true)

/-- A place with no distance value. -/
def noDistancePlace : Place := { basicPlace "n1" 4 0 with distance := none }

/-- Filters with only a 1 km distance maximum active. -/
def distanceOnlyFilters : PlaceFiltersPartial :=
  { rating := none, priceLevel := none, openNow := none,
    distance := some ⟨1⟩, features := none }

/-- **C3, counterexample.**  A place whose `distance` field is undefined is
kept by `filteredPlaces` under an active 1 km distance filter
(`!place.distance` short-circuits the comparison), while the claim's
keep-iff — which requires "its distance is at most max*1000 meters" — says
it must be dropped. -/
theorem c3_counterexample :
    filteredPlaces distanceOnlyFilters [noDistancePlace] = [noDistancePlace] ∧
    specFilterKeep distanceOnlyFilters noDistancePlace = false := by
  constructor
  · norm_num [filteredPlaces, distanceOnlyFilters, noDistancePlace, basicPlace]
  · rfl

/-- Filters with only the rating group `{min: 4, max: 5}` active. -/
def ratingOnlyFilters : PlaceFiltersPartial :=
  { rating := some ⟨4, 5⟩, priceLevel := none, openNow := none,
    distance := none, features := none }

/-- **C3** (amended): applying filters is a pure AND-composition of the
active clauses — one `List.filter` over the fetched list, which is therefore
a derived view in original relative order, the fetched list untouched —
where a place passes the rating clause iff its rating is in `[min,max]`, the
price clause iff its (defined, non-zero) priceLevel is in the non-empty
price set, and the distance clause iff its distance is undefined, zero, or
at most `max*1000` meters (undefined/zero distances pass — see the
counterexample for the claim's stricter distance wording).  On places rated
`[3.2, 4.1, 4.9, 5.0]`, the rating filter `{min: 4, max: 5}` yields exactly
the places rated `4.1, 4.9, 5.0` in original relative order. -/
theorem c3_filter_composition :
    (∀ (f : PlaceFiltersPartial) (ps : List Place),
      filteredPlaces f ps = ps.filter (keepPlace f)) ∧
    filteredPlaces ratingOnlyFilters
        [basicPlace "r32" (32/10) 100, basicPlace "r41" (41/10) 100,
          basicPlace "r49" (49/10) 100, basicPlace "r50" 5 100]
      = [basicPlace "r41" (41/10) 100, basicPlace "r49" (49/10) 100,
          basicPlace "r50" 5 100] := by
  refine ⟨filteredPlaces_eq_filter, ?_⟩
  norm_num [filteredPlaces, ratingOnlyFilters, basicPlace]

/-- **C10.**  A place whose `distance` field is undefined or equal to `0`
passes the distance clause regardless of the configured maximum, so its
membership in the filtered view is decided by the rating and price clauses
alone. -/
theorem c10_zero_or_missing_distance_passes (f : PlaceFiltersPartial)
    (ps : List Place) (p : Place)
    (h : p.distance = none ∨ p.distance = some 0) :
    distanceClause f p = true ∧
    (p ∈ filteredPlaces f ps ↔
      p ∈ ps ∧ ratingClause f p = true ∧ priceClause f p = true) := by
  have hd : distanceClause f p = true := by
    unfold distanceClause
    cases f.distance with
    | none => rfl
    | some d => rcases h with h | h <;> simp [h]
  refine ⟨hd, ?_⟩
  rw [filteredPlaces_eq_filter]
  simp [List.mem_filter, keepPlace, hd, Bool.and_eq_true]

/-- Witness for `c10_zero_or_missing_distance_passes` on a place with
undefined distance under an active 1 km distance filter. -/
theorem c10_zero_or_missing_distance_passes_witness :
    distanceClause distanceOnlyFilters noDistancePlace = true ∧
    (noDistancePlace ∈ filteredPlaces distanceOnlyFilters [noDistancePlace] ↔
      noDistancePlace ∈ [noDistancePlace] ∧
      ratingClause distanceOnlyFilters noDistancePlace = true ∧
      priceClause distanceOnlyFilters noDistancePlace = true) :=
  c10_zero_or_missing_distance_passes distanceOnlyFilters [noDistancePlace]
    noDistancePlace (Or.inl rfl)

/-! ## Navigation state in the URL
(`app/hooks/shared/use-navigation-state.ts`) -/

/-- `NavigationMode = 'none' | 'static' | 'live'`. -/
inductive NavigationMode where
  | none
  | static
  | live
  deriving DecidableEq, Repr

/-- The state held by `useNavigationState` (both values live in the URL). -/
structure NavState where
  navigationMode : NavigationMode
  destinationId : Option String
  deriving DecidableEq, Repr

/-- The `parse` option of the `nav` query-state: `'static'` and `'live'`
pass through, anything else becomes `'none'`. -/
def parseNavMode (value : String) : NavigationMode :=
  if value = "static" then .static
  else if value = "live" then .live
  else .none

/-- The `parse` option of the `destination` query-state: `value || null`. -/
def parseDestination (value : String) : Option String :=
  if value = "" then none else some value

/-- The state restored from URL query parameters; absent parameters fall
back to the declared defaults (`'none'` and `null`). -/
def restoreFromURL (nav destination : Option String) : NavState :=
  { navigationMode :=
      match nav with
      | some v => parseNavMode v
      | none => .none
    destinationId :=
      match destination with
      | some v => parseDestination v
      | none => none }

/-- `startNavigation(placeId, mode)`: sets the destination, then the mode. -/
def startNavigation (s : NavState) (placeId : String)
    (mode : NavigationMode) : NavState :=
  { s with destinationId := some placeId
           navigationMode := mode }

/-- `stopNavigation()`: clears the destination and resets the mode. -/
def stopNavigation (s : NavState) : NavState :=
  { s with destinationId := none
           navigationMode := .none }

/-- `setNavigationMode(mode)` (exposed directly by the hook). -/
def setNavigationMode (s : NavState) (mode : NavigationMode) : NavState :=
  { s with navigationMode := mode }

/-- The state on a URL carrying neither parameter. -/
def navInit : NavState := restoreFromURL none none

/-- The claimed invariant: a destination is set iff the mode is not
`'none'`. -/
def navInvariant (s : NavState) : Prop :=
  s.navigationMode ≠ NavigationMode.none ↔ s.destinationId.isSome

/-- **C2, counterexample.**  Two navigation-API entry points break the
invariant: `setNavigationMode('static')` from the initial state yields
`mode = static` with no destination, and restoring from a URL carrying
`?nav=live` but no `destination` parameter yields `mode = live` with no
destination. -/
theorem c2_counterexample :
    ¬ navInvariant (setNavigationMode navInit .static) ∧
    ¬ navInvariant (restoreFromURL (some "live") none) := by
  constructor <;> · intro h; exact absurd (h.mp (by decide)) (by decide)

/-- States reachable through the transitions the feature's call sites
actually use: `startNavigation(placeId, 'static' | 'live')` and
`stopNavigation()`. -/
inductive NavReachable : NavState → Prop where
  | init : NavReachable navInit
  | start (s : NavState) (placeId : String) (mode : NavigationMode) :
      NavReachable s → mode ≠ NavigationMode.none →
      NavReachable (startNavigation s placeId mode)
  | stop (s : NavState) : NavReachable s → NavReachable (stopNavigation s)

/-- **C2** (amended): the invariant `destinationId` set iff `mode ≠ none`
holds in every state reachable through `startNavigation` with a non-`none`
mode and `stopNavigation` from the initial state.  It is not preserved by
the two remaining entry points — `setNavigationMode` alone and
restore-from-URL parsing — see the counterexample. -/
theorem c2_navigation_invariant (s : NavState) (h : NavReachable s) :
    navInvariant s := by
  induction h with
  | init => simp [navInvariant, navInit, restoreFromURL]
  | start s placeId mode hs hmode ih =>
    simp [navInvariant, startNavigation, hmode]
  | stop s hs ih => simp [navInvariant, stopNavigation]

/-- Witness for `c2_navigation_invariant`: live navigation to `place_1`. -/
theorem c2_navigation_invariant_witness :
    navInvariant (startNavigation navInit "place_1" NavigationMode.live) :=
  c2_navigation_invariant _
    (NavReachable.start _ _ _ NavReachable.init (by decide))

/-! ## Map container navigation machinery
(`app/features/places/map-container.tsx`)

The navigation-relevant refs of `MapContainer`, the geolocation capability's
registry of open watches, and the handlers/effect wired to
`useNavigationState`.  Watch ids are allocated `1, 2, …` by the platform
model (the source checks `if (locationWatchIdRef.current)`, a truthiness
test, so ids start above `0`). -/

/-- JavaScript truthiness of an optional number (`undefined` and `0`
falsy). -/
def truthyN : Option ℕ → Bool
  | none => false
  | some n => n ≠ 0

/-- Mutable navigation state of `MapContainer`:
`locationWatchIdRef`, the presence of `directionsRendererRef`, the
URL-backed `NavState`, and the platform geolocation registry
(`nextWatchId` allocator plus the set of currently open watches). -/
structure MapNavState where
  nav : NavState
  locationWatchId : Option ℕ
  rendererOpen : Bool
  nextWatchId : ℕ
  openWatches : List ℕ
  deriving DecidableEq, Repr

/-- `startRealTimeNavigation`: `navigator.geolocation.watchPosition(...)`
registers a new watch and its id is stored in `locationWatchIdRef` —
overwriting any previous id without clearing that previous watch. -/
def startRealTimeNavigation (s : MapNavState) : MapNavState :=
  { s with locationWatchId := some s.nextWatchId
           openWatches := s.nextWatchId :: s.openWatches
           nextWatchId := s.nextWatchId + 1 }

/-- `if (locationWatchIdRef.current) { clearWatch(id); ref = null }`. -/
def clearLocationWatch (s : MapNavState) : MapNavState :=
  if truthyN s.locationWatchId then
    { s with
      openWatches := s.openWatches.filter fun w => w ≠ s.locationWatchId.getD 0
      locationWatchId := none }
  else s

/-- `currentDestination`: the destination id resolved against the current
markers (`markers.find(m => m.place.id === destinationId)`). -/
def currentDestination (markers : List String) (s : NavState) :
    Option String :=
  match s.destinationId with
  | some d => if markers.contains d then some d else none
  | none => none

/-- The `useEffect` on `[navigationMode, currentDestination, center]`
(lines 526-560): early-return unless a center and a resolved destination
exist; ensure the directions renderer exists; `'static'` computes the route
only, `'live'` computes the route and starts a location watch, `'none'`
tears the renderer down and clears the watch. -/
def runNavigationEffect (hasCenter : Bool) (markers : List String)
    (s : MapNavState) : MapNavState :=
  if !hasCenter || (currentDestination markers s.nav).isNone then s
  else
    let s1 := { s with rendererOpen := true }
    match s1.nav.navigationMode with
    | .static => s1
    | .live => startRealTimeNavigation s1
    | .none => clearLocationWatch { s1 with rendererOpen := false }

/-- `handleStopNavigation`: stop via the URL state, then clear the watch and
tear down the renderer. -/
def handleStopNavigation (s : MapNavState) : MapNavState :=
  let s1 := clearLocationWatch { s with nav := stopNavigation s.nav }
  { s1 with rendererOpen := false }

/-- `handleStaticRoute`: requires a center, then
`startNavigation(place.id, 'static')`. -/
def handleStaticRoute (hasCenter : Bool) (s : MapNavState)
    (placeId : String) : MapNavState :=
  if !hasCenter then s
  else { s with nav := startNavigation s.nav placeId .static }

/-- `handleLiveNavigation`: requires a center, then
`startNavigation(place.id, 'live')`. -/
def handleLiveNavigation (hasCenter : Bool) (s : MapNavState)
    (placeId : String) : MapNavState :=
  if !hasCenter then s
  else { s with nav := startNavigation s.nav placeId .live }

/-- Initial map state: no navigation, no watch, no renderer. -/
def mapInit : MapNavState :=
  { nav := navInit, locationWatchId := none, rendererOpen := false,
    nextWatchId := 1, openWatches := [] }

/-- The marker set for the scenario: places X and Y are on the map. -/
def c8Markers : List String := ["placeX", "placeY"]

/-- Scenario C: start live navigation to X (navigation effect runs), then
immediately start static navigation to Y (navigation effect runs again). -/
def c8FinalState : MapNavState :=
  runNavigationEffect true c8Markers
    (handleStaticRoute true
      (runNavigationEffect true c8Markers
        (handleLiveNavigation true mapInit "placeX"))
      "placeY")

/-- **C8.**  After live-to-X followed immediately by static-to-Y the state
is `mode = static`, `destination = Y` as the claim says — but the location
watch opened for X's live tracking is still registered (watch id 1 both in
`locationWatchIdRef` and in the platform registry): the effect clears the
watch only in its `'none'` branch, which a `live → static` transition never
enters.  Only the explicit stop handler releases it. -/
theorem c8_stale_watch_not_released :
    c8FinalState.nav.navigationMode = NavigationMode.static ∧
    c8FinalState.nav.destinationId = some "placeY" ∧
    c8FinalState.locationWatchId = some 1 ∧
    c8FinalState.openWatches = [1] ∧
    (handleStopNavigation c8FinalState).openWatches = [] := by decide

/-! ## Stale search responses and the query cache
(`app/hooks/api/use-places-search.ts`, lines 29-39 and 112-131)

Results are committed to the tanstack-query cache under the key
`['places', 'search', params]` of the request that produced them, and the
hook renders the entry under the key of the *current* `searchParams`.  The
cache is modelled as an association list from `PlaceSearchParams` to
results. -/

/-- A response commit (`fetchQuery`/`setQueryData`): replaces the entry for
the originating request's key only. -/
def commitResult (cache : List (PlaceSearchParams × PlaceSearchResult))
    (params : PlaceSearchParams) (result : PlaceSearchResult) :
    List (PlaceSearchParams × PlaceSearchResult) :=
  (params, result) :: cache.filter fun e => e.1 ≠ params

/-- The result the hook renders: the cache entry under the current
`searchParams` key. -/
def lookupResult (cache : List (PlaceSearchParams × PlaceSearchResult))
    (params : PlaceSearchParams) : Option PlaceSearchResult :=
  (cache.find? fun e => e.1 = params).map fun e => e.2

/-- **C9.**  If a second search supersedes the first with a changed category
or location, then after the newer response has been committed, a
late-arriving response belonging to the superseded request lands under its
own (different) key and never overwrites the result set rendered for the
newer request. -/
theorem c9_stale_response_no_overwrite
    (cache : List (PlaceSearchParams × PlaceSearchResult))
    (p1 p2 : PlaceSearchParams) (r1 r2 : PlaceSearchResult)
    (hsup : p1.type ≠ p2.type ∨ p1.location ≠ p2.location) :
    lookupResult (commitResult (commitResult cache p2 r2) p1 r1) p2
      = some r2 := by
  have hne : p1 ≠ p2 := by
    intro h
    subst h
    rcases hsup with h | h <;> exact h rfl
  unfold lookupResult commitResult
  rw [List.filter_cons]
  simp [hne, Ne.symm hne]

/-- Witness for `c9_stale_response_no_overwrite`: a restaurants search
superseded by a hotels search at the same location. -/
theorem c9_stale_response_no_overwrite_witness :
    lookupResult
      (commitResult
        (commitResult [] { noFilterParams with type := .hotels }
          ⟨[], 2, { noFilterParams with type := .hotels }, 0, none⟩)
        noFilterParams ⟨[], 1, noFilterParams, 0, none⟩)
      { noFilterParams with type := .hotels }
      = some ⟨[], 2, { noFilterParams with type := .hotels }, 0, none⟩ :=
  c9_stale_response_no_overwrite [] noFilterParams
    { noFilterParams with type := .hotels }
    ⟨[], 1, noFilterParams, 0, none⟩
    ⟨[], 2, { noFilterParams with type := .hotels }, 0, none⟩
    (Or.inl (by decide))

/-! ## Haversine distance
(`MockDistanceService.calculateDistance`, `app/lib/mock/places-service.ts`
lines 297-313, and `GooglePlacesService.calculateDistance`, Google places
service lines 288-301)

The trigonometry forces these definitions over `ℝ` (they are the one
noncomputable corner of the embedding); coordinates stay the rational
`Coordinates` of the data model and are cast. -/

noncomputable section

/-- `Math.atan2(y, x)` on real inputs. -/
def atan2 (y x : ℝ) : ℝ :=
  if 0 < x then Real.arctan (y / x)
  else if x < 0 ∧ 0 ≤ y then Real.arctan (y / x) + Real.pi
  else if x < 0 ∧ y < 0 then Real.arctan (y / x) - Real.pi
  else if x = 0 ∧ 0 < y then Real.pi / 2
  else if x = 0 ∧ y < 0 then -(Real.pi / 2)
  else 0

/-- `MockDistanceService.deg2rad`. -/
def deg2rad (deg : ℝ) : ℝ := deg * (Real.pi / 180)

/-- `MockDistanceService.calculateDistance`: haversine with `R = 6371` km,
scaled to meters at the end. -/
def mockCalculateDistance (origin destination : Coordinates) : ℝ :=
  let R : ℝ := 6371
  let dLat := deg2rad ((destination.lat : ℝ) - (origin.lat : ℝ))
  let dLng := deg2rad ((destination.lng : ℝ) - (origin.lng : ℝ))
  let a :=
    Real.sin (dLat / 2) * Real.sin (dLat / 2) +
      Real.cos (deg2rad (origin.lat : ℝ)) *
        Real.cos (deg2rad (destination.lat : ℝ)) *
        Real.sin (dLng / 2) * Real.sin (dLng / 2)
  let c := 2 * atan2 (Real.sqrt a) (Real.sqrt (1 - a))
  R * c * 1000

/-- `GooglePlacesService.calculateDistance`: haversine with
`R = 6371e3` m. -/
def googleCalculateDistance (origin destination : Coordinates) : ℝ :=
  let R : ℝ := 6371000
  let phi1 := (origin.lat : ℝ) * Real.pi / 180
  let phi2 := (destination.lat : ℝ) * Real.pi / 180
  let dPhi := ((destination.lat : ℝ) - (origin.lat : ℝ)) * Real.pi / 180
  let dLambda := ((destination.lng : ℝ) - (origin.lng : ℝ)) * Real.pi / 180
  let a :=
    Real.sin (dPhi / 2) * Real.sin (dPhi / 2) +
      Real.cos phi1 * Real.cos phi2 *
        Real.sin (dLambda / 2) * Real.sin (dLambda / 2)
  let c := 2 * atan2 (Real.sqrt a) (Real.sqrt (1 - a))
  R * c

end

/-- `deg2rad` written the way the Google service inlines it. -/
theorem deg2rad_eq (x : ℝ) : deg2rad x = x * Real.pi / 180 := by
  unfold deg2rad
  ring

/-- The haversine `a`-term is symmetric in the two endpoints. -/
theorem havTerm_symm (x1 y1 x2 y2 : ℝ) :
    Real.sin ((x2 - x1) * Real.pi / 180 / 2) *
        Real.sin ((x2 - x1) * Real.pi / 180 / 2) +
      Real.cos (x1 * Real.pi / 180) * Real.cos (x2 * Real.pi / 180) *
        Real.sin ((y2 - y1) * Real.pi / 180 / 2) *
        Real.sin ((y2 - y1) * Real.pi / 180 / 2)
    = Real.sin ((x1 - x2) * Real.pi / 180 / 2) *
        Real.sin ((x1 - x2) * Real.pi / 180 / 2) +
      Real.cos (x2 * Real.pi / 180) * Real.cos (x1 * Real.pi / 180) *
        Real.sin ((y1 - y2) * Real.pi / 180 / 2) *
        Real.sin ((y1 - y2) * Real.pi / 180 / 2) := by
  have e1 : (x1 - x2) * Real.pi / 180 / 2 = -((x2 - x1) * Real.pi / 180 / 2) := by
    ring
  have e2 : (y1 - y2) * Real.pi / 180 / 2 = -((y2 - y1) * Real.pi / 180 / 2) := by
    ring
  rw [e1, e2, Real.sin_neg, Real.sin_neg]
  ring

/-- The two implementations compute the same expression (`6371 * c * 1000`
versus `6371000 * c`). -/
theorem mock_eq_google (a b : Coordinates) :
    mockCalculateDistance a b = googleCalculateDistance a b := by
  simp only [mockCalculateDistance, googleCalculateDistance, deg2rad_eq]
  ring

/-- `ValidCoordinates`: the invariant of the `Coordinates` value type. -/
def ValidCoordinates (c : Coordinates) : Prop :=
  -90 ≤ c.lat ∧ c.lat ≤ 90 ∧ -180 ≤ c.lng ∧ c.lng ≤ 180

/-- **C7.**  For valid coordinates, the haversine distance is symmetric and
zero on the diagonal, and the mock implementation (Earth radius 6371 km,
result scaled by 1000 to meters) agrees exactly with the Google-service
implementation (Earth radius 6,371,000 m, degree inputs converted to
radians, result in meters). -/
theorem c7_haversine_properties (a b : Coordinates)
    (_ha : ValidCoordinates a) (_hb : ValidCoordinates b) :
    mockCalculateDistance a b = mockCalculateDistance b a ∧
    mockCalculateDistance a a = 0 ∧
    mockCalculateDistance a b = googleCalculateDistance a b := by
  refine ⟨?_, ?_, mock_eq_google a b⟩
  · simp only [mockCalculateDistance, deg2rad_eq]
    rw [havTerm_symm]
  · simp only [mockCalculateDistance, deg2rad_eq, sub_self, zero_mul,
      zero_div, Real.sin_zero, mul_zero, add_zero, Real.sqrt_zero, sub_zero,
      Real.sqrt_one, atan2, zero_lt_one, if_true, zero_div, Real.arctan_zero]

/-- Witness for `c7_haversine_properties` at Bucharest-like integer
coordinates. -/
theorem c7_haversine_properties_witness :
    mockCalculateDistance ⟨44, 26⟩ ⟨47, 27⟩
        = mockCalculateDistance ⟨47, 27⟩ ⟨44, 26⟩ ∧
    mockCalculateDistance ⟨44, 26⟩ ⟨44, 26⟩ = 0 ∧
    mockCalculateDistance ⟨44, 26⟩ ⟨47, 27⟩
        = googleCalculateDistance ⟨44, 26⟩ ⟨47, 27⟩ :=
  c7_haversine_properties ⟨44, 26⟩ ⟨47, 27⟩ (by norm_num [ValidCoordinates])
    (by norm_num [ValidCoordinates])

end AIPlaceSearch
